import Mathlib

/-!
Verification of the two serverless request handlers of the nutrients-scan
repository against its specification.

The embedding follows the source files:
* `src/unnamed/part_000` — the food-recognition proxy (`Recognition.handler`);
* `src/unnamed/part_001` and `src/unnamed/part_002` — the nutrition-score proxy
  with the `fetchWithRetry` helper (`NScore.handler`; the two files differ only
  in the prompt text, and the embedding follows `part_002`, whose prompt also
  embeds the total weight);
* `src/netlify/functions/get-n-score.js` — an earlier variant of the score
  handler without the retry helper and without the envelope-structure check;
  the claims about retry and structure checking refer to the later variant.

Modelling conventions:
* JavaScript values reachable from `JSON.parse`, plus `undefined`, are the
  inductive type `JsVal`.  JavaScript numbers are modelled as rationals
  (`ℚ`); `NaN`, signed zero, and float-specific printing are outside the
  model (no claim depends on them).
* `JSON.parse(event.body)` is modelled by storing its outcome
  (`Except String JsVal`) in the event: it either throws or yields a value.
* `fetch` is modelled by an oracle `Nat → FetchOutcome` giving the outcome of
  the n-th outbound call of the invocation; `FetchOutcome.err` is a rejected
  promise (transport failure), `FetchOutcome.ok` a settled `Response`.
* `await new Promise(res => setTimeout(res, d))` is modelled by recording `d`
  in a list of performed delays.
* Thrown exceptions are `Except.error msg` carrying `error.message`; the
  exact wording of engine-generated `TypeError` messages is abstracted (we
  use fixed strings close to V8's), while messages the source constructs
  itself are reproduced verbatim.
-/

/-- A JavaScript value as observable by the handlers: the result of
`JSON.parse`, plus `undefined` for absent properties. -/
inductive JsVal where
  | undefined : JsVal
  | null : JsVal
  | bool (b : Bool) : JsVal
  | num (q : ℚ) : JsVal
  | str (s : String) : JsVal
  | arr (xs : List JsVal) : JsVal
  | obj (fields : List (String × JsVal)) : JsVal

/-- JavaScript truthiness (`NaN` is outside the model). -/
def JsVal.truthy : JsVal → Bool
  | .undefined => false
  | .null => false
  | .bool b => b
  | .num q => q != 0
  | .str s => s != ""
  | .arr _ => true
  | .obj _ => true

/-- Property access `v.k`: throws a `TypeError` on `undefined`/`null`,
yields `undefined` for absent properties and for primitives (none of the
accessed property names exists on a JS primitive). -/
def JsVal.get (v : JsVal) (k : String) : Except String JsVal :=
  match v with
  | .undefined => .error ("Cannot read properties of undefined (reading " ++ k ++ ")")
  | .null => .error ("Cannot read properties of null (reading " ++ k ++ ")")
  | .obj fields =>
    match fields.lookup k with
    | some x => .ok x
    | none => .ok .undefined
  | _ => .ok .undefined

/-- Index access `v[i]`: throws on `undefined`/`null`, indexes arrays and
strings, looks the decimal key up on objects, yields `undefined` otherwise. -/
def JsVal.idx (v : JsVal) (i : Nat) : Except String JsVal :=
  match v with
  | .undefined => .error ("Cannot read properties of undefined (reading " ++ toString i ++ ")")
  | .null => .error ("Cannot read properties of null (reading " ++ toString i ++ ")")
  | .arr xs =>
    .ok (match xs.get? i with
      | some x => x
      | none => .undefined)
  | .str s =>
    .ok (match s.data.get? i with
      | some c => .str (String.singleton c)
      | none => .undefined)
  | .obj fields =>
    .ok (match fields.lookup (toString i) with
      | some x => x
      | none => .undefined)
  | _ => .ok .undefined

/-- Destructuring `const { k1, k2 } = v` (throws only when `v` is
`undefined` or `null`). -/
def JsVal.get2 (v : JsVal) (k1 k2 : String) : Except String (JsVal × JsVal) :=
  match v.get k1 with
  | .error m => .error m
  | .ok a =>
    match v.get k2 with
    | .error m => .error m
    | .ok b => .ok (a, b)

/-- Abstraction of JavaScript number-to-string conversion (float-specific
shortest-roundtrip printing is outside the model; no claim reaches it). -/
def numToString (q : ℚ) : String :=
  if q.den = 1 then toString q.num else toString q.num ++ "/" ++ toString q.den

/-- `Number.prototype.toFixed`, over the rational model of JS numbers:
round `q` to `d` fractional digits, half toward positive infinity (the
ECMAScript "pick the larger n" rule), and print with exactly `d` digits
after the point. -/
def toFixed (q : ℚ) (d : Nat) : String :=
  let n : Int := ⌊q * 10 ^ d + 1 / 2⌋
  if d = 0 then toString n
  else
    let sign := if n < 0 then "-" else ""
    let a := n.natAbs
    let ip := a / 10 ^ d
    let fp := a % 10 ^ d
    let fpStr := toString fp
    let padded :=
      if fpStr.length ≥ d then fpStr
      else String.mk (List.replicate (d - fpStr.length) '0') ++ fpStr
    sign ++ toString ip ++ "." ++ padded

/-- `v.toFixed(d)`: defined only on numbers; property access on
`undefined`/`null` throws, and calling a missing member throws. -/
def JsVal.toFixedE (v : JsVal) (d : Nat) : Except String String :=
  match v with
  | .num q => .ok (toFixed q d)
  | .undefined => .error "Cannot read properties of undefined (reading toFixed)"
  | .null => .error "Cannot read properties of null (reading toFixed)"
  | _ => .error "toFixed is not a function"

/-- Element conversion used by `Array.prototype.join` (`null`/`undefined`
become empty; nested-array flattening is abstracted, unreachable here). -/
def joinElem : JsVal → String
  | .undefined => ""
  | .null => ""
  | .bool b => if b then "true" else "false"
  | .num q => numToString q
  | .str s => s
  | .arr _ => ""
  | .obj _ => "[object Object]"

/-- `v.join(sep)`: defined on arrays; throws on `undefined`/`null` and on
values without a `join` member. -/
def JsVal.joinE (v : JsVal) (sep : String) : Except String String :=
  match v with
  | .arr xs => .ok (String.intercalate sep (xs.map joinElem))
  | .undefined => .error "Cannot read properties of undefined (reading join)"
  | .null => .error "Cannot read properties of null (reading join)"
  | _ => .error "join is not a function"

/-- JSON string escaping for the characters our messages can contain. -/
def escapeJsonChar (c : Char) : String :=
  if c = '"' then "\\\""
  else if c = '\\' then "\\\\"
  else if c = '\n' then "\\n"
  else if c = '\t' then "\\t"
  else if c = '\r' then "\\r"
  else String.singleton c

/-- JSON string escaping, character by character. -/
def escapeJson (s : String) : String := String.join (s.data.map escapeJsonChar)

/-- `JSON.stringify({ error: msg })`, as produced in every catch block of the
source. -/
def stringifyError (msg : String) : String :=
  "\x7b\"error\":\"" ++ escapeJson msg ++ "\"\x7d"

mutual
/-- `JSON.stringify` on a parsed JSON value (an `undefined` leaf, which
`JSON.parse` cannot produce, prints as `null`). -/
def jsonStringify : JsVal → String
  | .undefined => "null"
  | .null => "null"
  | .bool b => if b then "true" else "false"
  | .num q => numToString q
  | .str s => "\"" ++ escapeJson s ++ "\""
  | .arr xs => "[" ++ jsonStringifyArr xs ++ "]"
  | .obj fields => "\x7b" ++ jsonStringifyObj fields ++ "\x7d"

/-- Comma-separated stringification of array elements. -/
def jsonStringifyArr : List JsVal → String
  | [] => ""
  | [x] => jsonStringify x
  | x :: xs => jsonStringify x ++ "," ++ jsonStringifyArr xs

/-- Comma-separated stringification of object fields. -/
def jsonStringifyObj : List (String × JsVal) → String
  | [] => ""
  | [(k, v)] => "\"" ++ escapeJson k ++ "\":" ++ jsonStringify v
  | (k, v) :: fields =>
    "\"" ++ escapeJson k ++ "\":" ++ jsonStringify v ++ "," ++ jsonStringifyObj fields
end

/-- An upstream `Response`, as far as the handlers observe it: the status,
the body as text (`response.text()`), and the body as parsed JSON
(`response.json()`, which throws on a non-JSON body). -/
structure Response where
  status : Nat
  text : String
  json : Except String JsVal

/-- `response.ok`: status in the 200–299 range. -/
def respOk (r : Response) : Bool := 200 ≤ r.status && r.status ≤ 299

/-- Outcome of one `fetch` call: a settled response, or a transport failure
(rejected promise) carrying the error message. -/
inductive FetchOutcome where
  | ok (response : Response) : FetchOutcome
  | err (msg : String) : FetchOutcome

/-- View of a fetch outcome as the thrown-or-returned result seen by an
`await` of that call. -/
def ofOutcome : FetchOutcome → Except String Response
  | .ok r => .ok r
  | .err m => .error m

/-- What `fetchWithRetry` produces: the awaited result (a response, or a
propagated exception), the number of `fetch` calls it made, and the backoff
delays it performed, in order. -/
structure RetryResult where
  result : Except String Response
  calls : Nat
  delays : List Nat

/-- The loop body of `fetchWithRetry` (source: `src/unnamed/part_001`
lines 76–99, identical in `part_002`): iterate `i` from 0 while
`i < retries`, here recast structurally on the remaining iteration count
`fuel = retries - i` (both are maintained in lockstep, so `i < retries`
iff `fuel > 0`).  A 2xx response and a 4xx response return immediately;
any other response falls to the retry path, sleeping `delay * 2 ^ i` when
`i < retries - 1`; a transport failure sleeps and continues when
`i < retries - 1` and is rethrown otherwise.  When the loop exits without
returning (`fuel = 0`), one additional unconditional `fetch` is issued
and awaited. -/
def fetchWithRetryGo (oracle : Nat → FetchOutcome) (retries delay : Nat) :
    Nat → Nat → Nat → List Nat → RetryResult
  | 0, _i, calls, delays =>
    match oracle calls with
    | .ok response => ⟨.ok response, calls + 1, delays⟩
    | .err msg => ⟨.error msg, calls + 1, delays⟩
  | fuel + 1, i, calls, delays =>
    match oracle calls with
    | .ok response =>
      if respOk response then ⟨.ok response, calls + 1, delays⟩
      else if 400 ≤ response.status && response.status < 500 then
        ⟨.ok response, calls + 1, delays⟩
      else if i < retries - 1 then
        fetchWithRetryGo oracle retries delay fuel (i + 1) (calls + 1) (delays ++ [delay * 2 ^ i])
      else
        fetchWithRetryGo oracle retries delay fuel (i + 1) (calls + 1) delays
    | .err msg =>
      if i < retries - 1 then
        fetchWithRetryGo oracle retries delay fuel (i + 1) (calls + 1) (delays ++ [delay * 2 ^ i])
      else ⟨.error msg, calls + 1, delays⟩

/-- `fetchWithRetry(url, options, retries, delay)`; the handlers call it
with the JS default arguments `retries = 3`, `delay = 1000`.  The url and
options do not vary across calls, so the oracle depends only on the call
index. -/
def fetchWithRetry (oracle : Nat → FetchOutcome) (retries delay : Nat) : RetryResult :=
  fetchWithRetryGo oracle retries delay retries 0 0 []

/-- A response that neither returns as a success nor as a client error:
the `fetchWithRetry` loop treats it as retryable. -/
def retryableStatus (r : Response) : Prop :=
  respOk r = false ∧ (400 ≤ r.status && r.status < 500) = false

/-- A fetch outcome the loop reacts to by retrying (when attempts remain):
a transport failure, or a response with a retryable status. -/
def retryableOutcome : FetchOutcome → Prop
  | .ok r => retryableStatus r
  | .err _ => True

/-- The inbound request: the HTTP method, and the outcome of
`JSON.parse(event.body)` (which either throws or yields a value). -/
structure Event where
  httpMethod : String
  parsedBody : Except String JsVal

/-- What a handler returns, together with the observable side effects of the
invocation: status, body (a JS value; plain strings where the source returns
strings), the `Content-Type` header when one is set, the number of outbound
upstream `fetch` calls, and the backoff delays performed. -/
structure HandlerResult where
  statusCode : Nat
  body : JsVal
  contentType : Option String
  upstreamCalls : Nat
  delays : List Nat

/-- The prompt template of the score handler (`src/unnamed/part_002`),
split at its nine interpolation holes; segment 0 precedes the joined food
names. -/
def scoreSeg0 : String :=
  "\nYou are \x27N-Score\x27, a stringent analysis AI for the \"Nutri Scan\" app. Your tone is playful, motivating, and insightful, like a fun health coach. You NEVER give medical advice.\n\nA user just ate a meal consisting of: "

/-- Score prompt between the food names and the total weight. -/
def scoreSeg1 : String :=
  ".\n\nThe meal\x27s total nutritional breakdown is:\n- Total Weight: "

/-- Score prompt between the total weight and the calories. -/
def scoreSeg2 : String := "g\n- Calories: "

/-- Score prompt between the calories and the protein. -/
def scoreSeg3 : String := "\n- Protein: "

/-- Score prompt between the protein and the fat. -/
def scoreSeg4 : String := "g\n- Fat: "

/-- Score prompt between the fat and the carbohydrates. -/
def scoreSeg5 : String := "g\n- Carbohydrates: "

/-- Score prompt between the carbohydrates and the sugar. -/
def scoreSeg6 : String := "g\n- Sugar: "

/-- Score prompt between the sugar and the fiber. -/
def scoreSeg7 : String := "g\n- Fiber: "

/-- Score prompt between the fiber and the sodium. -/
def scoreSeg8 : String := "g\n- Sodium: "

/-- Score prompt after the sodium: the scoring rules, examples, and the
final instruction. -/
def scoreSeg9 : String :=
  "mg\n\n**Scoring-Rules (CRITICAL):**\nYour \"nScore\" (0-100) MUST be accurate and strict.\n1.  **HIGHLY REWARD:**\n    * **High Fiber:** Very important.\n    * **High Protein-to-Calorie Ratio:** Good.\n    * **Whole Foods:** Foods like \x27apple\x27, \x27broccoli\x27, \x27chicken breast\x27, \x27lentil\x27 are excellent.\n2.  **HEAVILY PENALIZE:**\n    * **High Sugar:** Especially if fiber is low.\n    * **High Sodium:** Anything over 500mg for a meal is bad.\n    * **High Fat:** Especially if protein is low.\n    * **Processed/Fried Foods:** Foods like \x27samosa\x27, \x27pani puri\x27, \x27pizza\x27, \x27donut\x27 are unhealthy and must get a LOW score.\n\n**Example Scoring:**\n* **An \x27apple\x27 (150g):** (Cal: 78, P: 0.5g, F: 0.3g, C: 21g, Sugar: 15g, Fiber: 3.6g, Na: 2mg) -> This is a perfect whole food. **nScore: 95-100**. Message: \"An apple a day... 🍎 That\x27s a perfect 100-point snack! Fueling smart.\"\n* **A \x27samosa\x27 (100g):** (Cal: 262, P: 5g, F: 17g, C: 24g, Sugar: 2g, Fiber: 2.5g, Na: 420mg) -> This is fried, high-fat, high-sodium. **nScore: 15-25**. Message: \"That samosa was a tasty detour! 🧪 Just know it\x27s heavy on refined carbs and fat.\"\n* **\x27Pani Puri\x27 (100g):** (Cal: 270, P: 6g, F: 10g, C: 40g, Sugar: 5g, Fiber: 4g, Na: 300mg) -> Fried, high-carb, high-sodium. **nScore: 20-30**. Message: \"Pani puri! 🥳 A flavor explosion, but also a sneak attack of fried carbs and sodium.\"\n* **A \x27salad\x27 (200g):** (Cal: 150, P: 10g, F: 5g, C: 15g, Sugar: 5g, Fiber: 8g, Na: 150mg) -> Excellent, high fiber, good protein. **nScore: 85-95**. Message: \"Now THAT is a power-up! 🥦 You’re fueling clean — your body’s high-fiving you right now 👏.\"\n\nNow, analyze the user\x27s meal based on these strict rules and provide the JSON response:\n\x7b\"nScore\": ..., \"message\": \"...\"\x7d\n"

/-- `totalNutrition.k.toFixed(d)`: property access followed by `toFixed`. -/
def fieldFixed (tn : JsVal) (k : String) (d : Nat) : Except String String :=
  match tn.get k with
  | .error m => .error m
  | .ok v => v.toFixedE d

namespace NScore

/-- Rendering of the score prompt template (`src/unnamed/part_002` lines
27–73): the template literal evaluates `foodNames.join(", ") || "a food
item"` and then each `toFixed` interpolation in textual order, any thrown
`TypeError` propagating. -/
def renderPrompt (totalNutrition foodNames : JsVal) : Except String String :=
  match foodNames.joinE ", " with
  | .error m => .error m
  | .ok joined =>
    let foods := if joined = "" then "a food item" else joined
    match fieldFixed totalNutrition "totalWeight" 0 with
    | .error m => .error m
    | .ok tw =>
      match fieldFixed totalNutrition "calories" 0 with
      | .error m => .error m
      | .ok cal =>
        match fieldFixed totalNutrition "protein" 1 with
        | .error m => .error m
        | .ok pro =>
          match fieldFixed totalNutrition "fat" 1 with
          | .error m => .error m
          | .ok fat =>
            match fieldFixed totalNutrition "carbs" 1 with
            | .error m => .error m
            | .ok carbs =>
              match fieldFixed totalNutrition "sugar" 1 with
              | .error m => .error m
              | .ok sugar =>
                match fieldFixed totalNutrition "fiber" 1 with
                | .error m => .error m
                | .ok fiber =>
                  match fieldFixed totalNutrition "sodium" 0 with
                  | .error m => .error m
                  | .ok sodium =>
                    .ok (scoreSeg0 ++ (foods ++ (scoreSeg1 ++ (tw ++ (scoreSeg2 ++
                      (cal ++ (scoreSeg3 ++ (pro ++ (scoreSeg4 ++ (fat ++
                      (scoreSeg5 ++ (carbs ++ (scoreSeg6 ++ (sugar ++ (scoreSeg7 ++
                      (fiber ++ (scoreSeg8 ++ (sodium ++ scoreSeg9))))))))))))))))))

/-- The envelope-structure check and extraction of the score handler
(`src/unnamed/part_002` lines 118–125): the chained truthiness test over
`result.candidates[0].content.parts[0].text`, throwing the explicit
"Invalid API response structure." error when a checked link is falsy, and a
`TypeError` when a navigation step itself throws (the source never checks
`parts` before indexing it); on success the extracted text. -/
def extractGenerated (result : JsVal) : Except String JsVal :=
  match result.get "candidates" with
  | .error m => .error m
  | .ok candidates =>
    if !candidates.truthy then .error "Invalid API response structure."
    else
      match candidates.idx 0 with
      | .error m => .error m
      | .ok c0 =>
        if !c0.truthy then .error "Invalid API response structure."
        else
          match c0.get "content" with
          | .error m => .error m
          | .ok content =>
            if !content.truthy then .error "Invalid API response structure."
            else
              match content.get "parts" with
              | .error m => .error m
              | .ok parts =>
                match parts.idx 0 with
                | .error m => .error m
                | .ok p0 =>
                  if !p0.truthy then .error "Invalid API response structure."
                  else
                    match p0.get "text" with
                    | .error m => .error m
                    | .ok text =>
                      if !text.truthy then .error "Invalid API response structure."
                      else .ok text

/-- The score handler (`src/unnamed/part_002`, logic identical in
`src/unnamed/part_001`): method gate, body parse, destructuring,
`totalNutrition` presence check, prompt rendering, `fetchWithRetry` with the
default 3 attempts and 1000ms base delay, the `response.ok` gate, the
envelope-structure check, and the catch-all mapping every thrown error to a
500 with `JSON.stringify({ error: message })`. -/
def handler (ev : Event) (oracle : Nat → FetchOutcome) : HandlerResult :=
  if ev.httpMethod ≠ "POST" then ⟨405, .str "Method Not Allowed", none, 0, []⟩
  else
    match ev.parsedBody with
    | .error msg => ⟨500, .str (stringifyError msg), none, 0, []⟩
    | .ok body =>
      match body.get2 "totalNutrition" "foodNames" with
      | .error msg => ⟨500, .str (stringifyError msg), none, 0, []⟩
      | .ok (totalNutrition, foodNames) =>
        if !totalNutrition.truthy then
          ⟨400, .str (stringifyError "Missing totalNutrition data."), none, 0, []⟩
        else
          match renderPrompt totalNutrition foodNames with
          | .error msg => ⟨500, .str (stringifyError msg), none, 0, []⟩
          | .ok _prompt =>
            let r := fetchWithRetry oracle 3 1000
            match r.result with
            | .error msg => ⟨500, .str (stringifyError msg), none, r.calls, r.delays⟩
            | .ok response =>
              if !respOk response then
                ⟨500, .str (stringifyError ("API error " ++ toString response.status ++
                  ": " ++ response.text)), none, r.calls, r.delays⟩
              else
                match response.json with
                | .error msg => ⟨500, .str (stringifyError msg), none, r.calls, r.delays⟩
                | .ok result =>
                  match extractGenerated result with
                  | .error msg => ⟨500, .str (stringifyError msg), none, r.calls, r.delays⟩
                  | .ok generatedJson =>
                    ⟨200, generatedJson, some "application/json", r.calls, r.delays⟩

end NScore

/-- The prompt template of the recognition handler (`src/unnamed/part_000`
line 15), before the joined supported-food names. -/
def recognitionSeg0 : String :=
  "Analyze the image for edible food items. From this specific list ONLY: "

/-- The recognition prompt after the joined supported-food names. -/
def recognitionSeg1 : String :=
  ", identify each food item visible. Ignore all non-food items, packaging, or medication. For each identified food, provide its name, estimated weight in grams, and a confidence score (0-1). Return a valid JSON array of objects: [\x7b\"foodName\": \"...\", \"estimatedWeight\": ..., \"confidenceScore\": ...\x7d]. If no listed foods are found, return an empty array []. If you see something that looks like medication, return [\x7b\"foodName\": \"medicine\", \"estimatedWeight\": 0, \"confidenceScore\": 1\x7d]."

namespace Recognition

/-- The food-recognition handler (`src/unnamed/part_000`): method gate,
body parse, destructuring, prompt rendering (whose
`supportedFoods.join(", ")` throws when the list is absent), a single
unguarded upstream call, the `response.ok` gate, and on success a 200 whose
body is `JSON.stringify` of the parsed upstream envelope; every thrown
error maps to a 500 with `JSON.stringify({ error: message })`. -/
def handler (ev : Event) (oracle : Nat → FetchOutcome) : HandlerResult :=
  if ev.httpMethod ≠ "POST" then ⟨405, .str "Method Not Allowed", none, 0, []⟩
  else
    match ev.parsedBody with
    | .error msg => ⟨500, .str (stringifyError msg), none, 0, []⟩
    | .ok body =>
      match body.get2 "base64ImageData" "supportedFoods" with
      | .error msg => ⟨500, .str (stringifyError msg), none, 0, []⟩
      | .ok (_base64ImageData, supportedFoods) =>
        match supportedFoods.joinE ", " with
        | .error msg => ⟨500, .str (stringifyError msg), none, 0, []⟩
        | .ok joined =>
          let _prompt := recognitionSeg0 ++ (joined ++ recognitionSeg1)
          match oracle 0 with
          | .err msg => ⟨500, .str (stringifyError msg), none, 1, []⟩
          | .ok response =>
            if !respOk response then
              ⟨500, .str (stringifyError ("API error " ++ toString response.status ++
                ": " ++ response.text)), none, 1, []⟩
            else
              match response.json with
              | .error msg => ⟨500, .str (stringifyError msg), none, 1, []⟩
              | .ok result => ⟨200, .str (jsonStringify result), none, 1, []⟩

end Recognition

/-- `s` occurs as a contiguous substring of `t`. -/
def StrContains (t s : String) : Prop := ∃ p q : String, t = p ++ (s ++ q)

/-- The prompt the score handler renders on the happy path (empty when
rendering throws); projection used to state properties of the prompt. -/
def NScore.renderedPrompt (tn fns : JsVal) : String :=
  match NScore.renderPrompt tn fns with
  | .ok p => p
  | .error _ => ""

/-- A well-formed nutrition totals object, used as a concrete test input. -/
def tnGood : JsVal := .obj [("totalWeight", .num 150), ("calories", .num 78),
  ("protein", .num 0.5), ("fat", .num 0.3), ("carbs", .num 21),
  ("sugar", .num 15), ("fiber", .num 3.6), ("sodium", .num 2)]

/-- A well-formed score request body. -/
def bodyGood : JsVal :=
  .obj [("totalNutrition", tnGood), ("foodNames", .arr [.str "apple", .str "banana"])]

/-- A well-formed POST score request. -/
def evGood : Event := ⟨"POST", .ok bodyGood⟩

/-- A well-formed upstream success envelope whose generated text is the
spec example string. -/
def envelopeGood : JsVal := .obj [("candidates", .arr [.obj [("content",
  .obj [("parts", .arr [.obj [("text",
    .str "\x7b\"nScore\":80,\"message\":\"ok\"\x7d")]])])]])]

/-- An upstream envelope whose first candidate has a `content` object but no
`parts` field: a field on the extraction path is missing. -/
def envelopeNoParts : JsVal :=
  .obj [("candidates", .arr [.obj [("content", .obj [("role", .str "model")])]])]

/-- An upstream envelope containing the full extraction path, whose `text`
field holds the empty string. -/
def envelopeEmptyText : JsVal := .obj [("candidates", .arr [.obj [("content",
  .obj [("parts", .arr [.obj [("text", .str "")]])])]])]

/-- A POST recognition request whose body lacks the `supportedFoods` field. -/
def evNoFoods : Event := ⟨"POST", .ok (.obj [("base64ImageData", .str "zzz")])⟩

/-- Every string contains the empty string. -/
theorem strContains_empty (t : String) : StrContains t "" := ⟨"", t, rfl⟩

/-- A concatenation contains its left operand. -/
theorem strContains_head (s q : String) : StrContains (s ++ q) s := ⟨"", q, rfl⟩

/-- Containment is preserved by prepending. -/
theorem strContains_cons (x : String) {t s : String} (h : StrContains t s) :
    StrContains (x ++ t) s := by
  obtain ⟨p, q, hp⟩ := h
  exact ⟨x ++ p, q, by rw [hp, String.append_assoc]⟩

/-- Claim C9: for every request whose `httpMethod` is not POST, both
handlers return status 405 with body `Method Not Allowed` and perform no
further processing — in particular zero outbound upstream calls. -/
theorem claim9_method_not_allowed (ev : Event) (oracle : Nat → FetchOutcome)
    (h : ev.httpMethod ≠ "POST") :
    NScore.handler ev oracle = ⟨405, .str "Method Not Allowed", none, 0, []⟩ ∧
    Recognition.handler ev oracle = ⟨405, .str "Method Not Allowed", none, 0, []⟩ := by
  constructor <;> simp [NScore.handler, Recognition.handler, h]

/-- Witness for C9 at a concrete GET request. -/
theorem claim9_witness :
    NScore.handler ⟨"GET", .error "no body"⟩ (fun _ => .err "unused") =
      ⟨405, .str "Method Not Allowed", none, 0, []⟩ ∧
    Recognition.handler ⟨"GET", .error "no body"⟩ (fun _ => .err "unused") =
      ⟨405, .str "Method Not Allowed", none, 0, []⟩ :=
  claim9_method_not_allowed ⟨"GET", .error "no body"⟩ (fun _ => .err "unused") (by decide)

/-- Claim C10: for every POST request whose body is not parseable JSON,
both handlers land in the catch block and return status 500 (not 400) with
body `{"error": message}`, making zero outbound upstream calls. -/
theorem claim10_unparseable_body_500 (ev : Event) (oracle : Nat → FetchOutcome)
    (msg : String) (hm : ev.httpMethod = "POST") (hb : ev.parsedBody = .error msg) :
    NScore.handler ev oracle = ⟨500, .str (stringifyError msg), none, 0, []⟩ ∧
    Recognition.handler ev oracle = ⟨500, .str (stringifyError msg), none, 0, []⟩ := by
  constructor <;> simp [NScore.handler, Recognition.handler, hm, hb]

/-- Witness for C10 at a concrete unparseable body. -/
theorem claim10_witness :
    NScore.handler ⟨"POST", .error "Unexpected token o in JSON at position 1"⟩
        (fun _ => .err "unused") =
      ⟨500, .str (stringifyError "Unexpected token o in JSON at position 1"), none, 0, []⟩ ∧
    Recognition.handler ⟨"POST", .error "Unexpected token o in JSON at position 1"⟩
        (fun _ => .err "unused") =
      ⟨500, .str (stringifyError "Unexpected token o in JSON at position 1"), none, 0, []⟩ :=
  claim10_unparseable_body_500 ⟨"POST", .error "Unexpected token o in JSON at position 1"⟩
    (fun _ => .err "unused") "Unexpected token o in JSON at position 1" rfl rfl

/-- Claim C7: for every POST score request whose parsed body has a falsy
(in particular absent) `totalNutrition` field, the handler returns status
400 with body `{"error":"Missing totalNutrition data."}` and makes zero
outbound upstream calls. -/
theorem claim7_missing_total_nutrition_400 (ev : Event) (oracle : Nat → FetchOutcome)
    (b tn fns : JsVal) (hm : ev.httpMethod = "POST") (hb : ev.parsedBody = .ok b)
    (hg : b.get2 "totalNutrition" "foodNames" = .ok (tn, fns))
    (ht : tn.truthy = false) :
    NScore.handler ev oracle =
      ⟨400, .str (stringifyError "Missing totalNutrition data."), none, 0, []⟩ := by
  simp [NScore.handler, hm, hb, hg, ht]

/-- Witness for C7 at a concrete body with no `totalNutrition` field. -/
theorem claim7_witness :
    NScore.handler ⟨"POST", .ok (.obj [("foodNames", .arr [.str "apple"])])⟩
        (fun _ => .err "unused") =
      ⟨400, .str (stringifyError "Missing totalNutrition data."), none, 0, []⟩ :=
  claim7_missing_total_nutrition_400 ⟨"POST", .ok (.obj [("foodNames", .arr [.str "apple"])])⟩
    (fun _ => .err "unused") (.obj [("foodNames", .arr [.str "apple"])]) .undefined
    (.arr [.str "apple"]) rfl rfl rfl rfl

/-- Claim C1: when the first upstream attempt of the score handler returns
a response with status in the 400–499 range, `fetchWithRetry` returns that
response immediately — exactly one upstream call, no delay — and the
handler surfaces the error to the caller as a 500. -/
theorem claim1_client_error_no_retry (ev : Event) (oracle : Nat → FetchOutcome)
    (b tn fns : JsVal) (r : Response)
    (hm : ev.httpMethod = "POST") (hb : ev.parsedBody = .ok b)
    (hg : b.get2 "totalNutrition" "foodNames" = .ok (tn, fns))
    (ht : tn.truthy = true)
    (hp : (NScore.renderPrompt tn fns).isOk = true)
    (h0 : oracle 0 = .ok r) (h4 : 400 ≤ r.status) (h5 : r.status < 500) :
    fetchWithRetry oracle 3 1000 = ⟨.ok r, 1, []⟩ ∧
    NScore.handler ev oracle =
      ⟨500, .str (stringifyError ("API error " ++ toString r.status ++ ": " ++ r.text)),
        none, 1, []⟩ := by
  have hok : respOk r = false := by
    simp only [respOk, Bool.and_eq_false_iff, decide_eq_false_iff_not, not_le]
    omega
  have h4b : (400 ≤ r.status && r.status < 500) = true := by
    simp only [Bool.and_eq_true, decide_eq_true_eq]
    exact ⟨h4, h5⟩
  have hfet : fetchWithRetry oracle 3 1000 = ⟨.ok r, 1, []⟩ := by
    simp [fetchWithRetry, fetchWithRetryGo, h0, hok, h4b]
  refine ⟨hfet, ?_⟩
  cases hpp : NScore.renderPrompt tn fns with
  | error m => rw [hpp] at hp; simp [Except.isOk, Except.toBool] at hp
  | ok p => simp [NScore.handler, hm, hb, hg, ht, hpp, hfet, hok]

/-- Witness for C1: a well-formed score request against an upstream that
answers 400. -/
theorem claim1_witness :
    fetchWithRetry (fun _ => .ok ⟨400, "Bad Request", .ok .null⟩) 3 1000 =
      ⟨.ok ⟨400, "Bad Request", .ok .null⟩, 1, []⟩ ∧
    NScore.handler evGood (fun _ => .ok ⟨400, "Bad Request", .ok .null⟩) =
      ⟨500, .str (stringifyError ("API error " ++ toString (400 : Nat) ++ ": " ++ "Bad Request")),
        none, 1, []⟩ :=
  claim1_client_error_no_retry evGood (fun _ => .ok ⟨400, "Bad Request", .ok .null⟩)
    bodyGood tnGood (.arr [.str "apple", .str "banana"]) ⟨400, "Bad Request", .ok .null⟩
    rfl rfl rfl rfl rfl rfl (by decide) (by decide)

/-- Claim C3: with base delay 1000 and 3 attempts, the wait before
re-attempting after attempt `i` (transport failure or retryable status,
attempts remaining) is `1000 * 2 ^ i`, so the successive delays 1000 and
2000 are non-decreasing; a transport failure on the last loop attempt
propagates as the thrown exception. -/
theorem claim3_backoff_delays (oracle : Nat → FetchOutcome) (m : String)
    (hr0 : retryableOutcome (oracle 0)) (hr1 : retryableOutcome (oracle 1))
    (h2 : oracle 2 = .err m) :
    fetchWithRetry oracle 3 1000 = ⟨.error m, 3, [1000 * 2 ^ 0, 1000 * 2 ^ 1]⟩ ∧
    1000 * 2 ^ 0 ≤ 1000 * 2 ^ 1 := by
  refine ⟨?_, by norm_num⟩
  cases ho0 : oracle 0 with
  | ok r0 =>
    rw [ho0] at hr0
    simp only [retryableOutcome, retryableStatus] at hr0
    obtain ⟨h0a, h0b⟩ := hr0
    cases ho1 : oracle 1 with
    | ok r1 =>
      rw [ho1] at hr1
      simp only [retryableOutcome, retryableStatus] at hr1
      obtain ⟨h1a, h1b⟩ := hr1
      simp [fetchWithRetry, fetchWithRetryGo, ho0, ho1, h2, h0a, h0b, h1a, h1b]
    | err m1 =>
      simp [fetchWithRetry, fetchWithRetryGo, ho0, ho1, h2, h0a, h0b]
  | err m0 =>
    cases ho1 : oracle 1 with
    | ok r1 =>
      rw [ho1] at hr1
      simp only [retryableOutcome, retryableStatus] at hr1
      obtain ⟨h1a, h1b⟩ := hr1
      simp [fetchWithRetry, fetchWithRetryGo, ho0, ho1, h2, h1a, h1b]
    | err m1 =>
      simp [fetchWithRetry, fetchWithRetryGo, ho0, ho1, h2]

/-- Witness for C3: a 503 response, then a transport failure, then a
transport failure on the final attempt, which propagates. -/
theorem claim3_witness :
    fetchWithRetry
        (fun n => if n = 0 then .ok ⟨503, "oops", .ok .null⟩ else .err "network down")
        3 1000 =
      ⟨.error "network down", 3, [1000 * 2 ^ 0, 1000 * 2 ^ 1]⟩ ∧
    1000 * 2 ^ 0 ≤ 1000 * 2 ^ 1 :=
  claim3_backoff_delays
    (fun n => if n = 0 then .ok ⟨503, "oops", .ok .null⟩ else .err "network down") "network down"
    (by simp [retryableOutcome, retryableStatus, respOk]) (by simp [retryableOutcome]) rfl

/-- Claim C2: when all 3 loop attempts of the score handler's
`fetchWithRetry` end in the retryable branch (the last one via a retryable
status, so the loop exits without returning), one additional unconditional
upstream request is issued after the loop, and its outcome — response or
thrown transport failure — is the result, for a total of 4 upstream calls,
which is also what the handler observes. -/
theorem claim2_postloop_extra_request (ev : Event) (oracle : Nat → FetchOutcome)
    (b tn fns : JsVal) (r2 : Response)
    (hm : ev.httpMethod = "POST") (hb : ev.parsedBody = .ok b)
    (hg : b.get2 "totalNutrition" "foodNames" = .ok (tn, fns))
    (ht : tn.truthy = true)
    (hp : (NScore.renderPrompt tn fns).isOk = true)
    (hr0 : retryableOutcome (oracle 0)) (hr1 : retryableOutcome (oracle 1))
    (h2 : oracle 2 = .ok r2) (h2r : retryableStatus r2) :
    fetchWithRetry oracle 3 1000 = ⟨ofOutcome (oracle 3), 4, [1000, 2000]⟩ ∧
    (NScore.handler ev oracle).upstreamCalls = 4 := by
  obtain ⟨h2a, h2b⟩ := h2r
  have hfet : fetchWithRetry oracle 3 1000 = ⟨ofOutcome (oracle 3), 4, [1000, 2000]⟩ := by
    cases ho0 : oracle 0 with
    | ok r0 =>
      rw [ho0] at hr0
      simp only [retryableOutcome, retryableStatus] at hr0
      obtain ⟨h0a, h0b⟩ := hr0
      cases ho1 : oracle 1 with
      | ok r1 =>
        rw [ho1] at hr1
        simp only [retryableOutcome, retryableStatus] at hr1
        obtain ⟨h1a, h1b⟩ := hr1
        cases ho3 : oracle 3 <;>
          simp [fetchWithRetry, fetchWithRetryGo, ho0, ho1, h2, ho3, h0a, h0b, h1a, h1b,
            h2a, h2b, ofOutcome]
      | err m1 =>
        cases ho3 : oracle 3 <;>
          simp [fetchWithRetry, fetchWithRetryGo, ho0, ho1, h2, ho3, h0a, h0b, h2a, h2b,
            ofOutcome]
    | err m0 =>
      cases ho1 : oracle 1 with
      | ok r1 =>
        rw [ho1] at hr1
        simp only [retryableOutcome, retryableStatus] at hr1
        obtain ⟨h1a, h1b⟩ := hr1
        cases ho3 : oracle 3 <;>
          simp [fetchWithRetry, fetchWithRetryGo, ho0, ho1, h2, ho3, h1a, h1b, h2a, h2b,
            ofOutcome]
      | err m1 =>
        cases ho3 : oracle 3 <;>
          simp [fetchWithRetry, fetchWithRetryGo, ho0, ho1, h2, ho3, h2a, h2b, ofOutcome]
  refine ⟨hfet, ?_⟩
  cases hpp : NScore.renderPrompt tn fns with
  | error m => rw [hpp] at hp; simp [Except.isOk, Except.toBool] at hp
  | ok p =>
    cases ho3 : oracle 3 with
    | ok r3 =>
      cases hok3 : respOk r3 with
      | false => simp [NScore.handler, hm, hb, hg, ht, hpp, hfet, ho3, ofOutcome, hok3]
      | true =>
        cases hj : r3.json with
        | error mj =>
          simp [NScore.handler, hm, hb, hg, ht, hpp, hfet, ho3, ofOutcome, hok3, hj]
        | ok res =>
          cases he : NScore.extractGenerated res with
          | error me =>
            simp [NScore.handler, hm, hb, hg, ht, hpp, hfet, ho3, ofOutcome, hok3, hj, he]
          | ok g =>
            simp [NScore.handler, hm, hb, hg, ht, hpp, hfet, ho3, ofOutcome, hok3, hj, he]
    | err m3 => simp [NScore.handler, hm, hb, hg, ht, hpp, hfet, ho3, ofOutcome]

/-- Witness for C2: an upstream that always answers 503; the fourth,
post-loop call also returns the 503 response, which the handler surfaces. -/
theorem claim2_witness :
    fetchWithRetry (fun _ => .ok ⟨503, "oops", .ok .null⟩) 3 1000 =
      ⟨ofOutcome ((fun _ => FetchOutcome.ok ⟨503, "oops", .ok .null⟩) 3), 4, [1000, 2000]⟩ ∧
    (NScore.handler evGood (fun _ => .ok ⟨503, "oops", .ok .null⟩)).upstreamCalls = 4 :=
  claim2_postloop_extra_request evGood (fun _ => .ok ⟨503, "oops", .ok .null⟩)
    bodyGood tnGood (.arr [.str "apple", .str "banana"]) ⟨503, "oops", .ok .null⟩
    rfl rfl rfl rfl rfl (by simp [retryableOutcome, retryableStatus, respOk])
    (by simp [retryableOutcome, retryableStatus, respOk]) rfl
    (by simp [retryableStatus, respOk])

/-- Counterexample to claim C4 as stated: on a 2xx response whose envelope
has `candidates[0].content` but no `parts` field — a field on the path is
absent — the handler does return a 500 without a further upstream request,
but the failure raised is the `TypeError` thrown by indexing the absent
`parts` list, not the explicit "Invalid API response structure." error, so
the surfaced error body differs from the invalid-upstream-structure one. -/
theorem claim4_counterexample :
    NScore.handler evGood (fun _ => .ok ⟨200, "okbody", .ok envelopeNoParts⟩) =
      ⟨500, .str (stringifyError "Cannot read properties of undefined (reading 0)"),
        none, 1, []⟩ ∧
    stringifyError "Cannot read properties of undefined (reading 0)" ≠
      stringifyError "Invalid API response structure." :=
  ⟨rfl, by decide⟩

/-- Claim C4, amended: on a 2xx upstream response whose parsed envelope
fails the extraction over `candidates[0].content.parts[0].text` — the
explicit "Invalid API response structure." error for every checked link,
or the `TypeError` from indexing an absent `parts` — the handler surfaces
that failure as a 500 with the failure's message, after exactly one
upstream request. -/
theorem claim4_missing_path_surfaces_500 (ev : Event) (oracle : Nat → FetchOutcome)
    (b tn fns : JsVal) (r : Response) (res : JsVal) (msg : String)
    (hm : ev.httpMethod = "POST") (hb : ev.parsedBody = .ok b)
    (hg : b.get2 "totalNutrition" "foodNames" = .ok (tn, fns))
    (ht : tn.truthy = true)
    (hp : (NScore.renderPrompt tn fns).isOk = true)
    (h0 : oracle 0 = .ok r) (hok : respOk r = true)
    (hj : r.json = .ok res)
    (he : NScore.extractGenerated res = .error msg) :
    NScore.handler ev oracle = ⟨500, .str (stringifyError msg), none, 1, []⟩ := by
  have hfet : fetchWithRetry oracle 3 1000 = ⟨.ok r, 1, []⟩ := by
    simp [fetchWithRetry, fetchWithRetryGo, h0, hok]
  cases hpp : NScore.renderPrompt tn fns with
  | error m => rw [hpp] at hp; simp [Except.isOk, Except.toBool] at hp
  | ok p => simp [NScore.handler, hm, hb, hg, ht, hpp, hfet, hok, hj, he]

/-- Witness for the amended C4: a 200 response with an empty-object
envelope (no `candidates`), surfaced as the invalid-structure 500. -/
theorem claim4_witness :
    NScore.handler evGood (fun _ => .ok ⟨200, "okbody", .ok (.obj [])⟩) =
      ⟨500, .str (stringifyError "Invalid API response structure."), none, 1, []⟩ :=
  claim4_missing_path_surfaces_500 evGood (fun _ => .ok ⟨200, "okbody", .ok (.obj [])⟩)
    bodyGood tnGood (.arr [.str "apple", .str "banana"]) ⟨200, "okbody", .ok (.obj [])⟩
    (.obj []) "Invalid API response structure." rfl rfl rfl rfl rfl rfl rfl rfl rfl

/-- Counterexample to claim C5 as stated: a 2xx response whose envelope
contains the full path `candidates[0].content.parts[0].text`, with the
`text` field holding the empty string; the truthiness-based structure
check rejects it, so the handler returns a 500 instead of a 200 with that
(empty) text as body. -/
theorem claim5_counterexample :
    NScore.handler evGood (fun _ => .ok ⟨200, "okbody", .ok envelopeEmptyText⟩) =
      ⟨500, .str (stringifyError "Invalid API response structure."), none, 1, []⟩ ∧
    (NScore.handler evGood (fun _ => .ok ⟨200, "okbody", .ok envelopeEmptyText⟩)).statusCode
      ≠ 200 :=
  ⟨rfl, by decide⟩

/-- Claim C5, amended: for every 2xx upstream response whose envelope
contains the full path `candidates[0].content.parts[0].text` with a truthy
(in particular non-empty) text string, the handler returns status 200 with
body exactly that string, unmodified, and a `Content-Type` header of
`application/json`. -/
theorem claim5_success_passthrough (ev : Event) (oracle : Nat → FetchOutcome)
    (b tn fns : JsVal) (r : Response) (res : JsVal) (s : String)
    (hm : ev.httpMethod = "POST") (hb : ev.parsedBody = .ok b)
    (hg : b.get2 "totalNutrition" "foodNames" = .ok (tn, fns))
    (ht : tn.truthy = true)
    (hp : (NScore.renderPrompt tn fns).isOk = true)
    (h0 : oracle 0 = .ok r) (hok : respOk r = true)
    (hj : r.json = .ok res)
    (he : NScore.extractGenerated res = .ok (.str s)) :
    NScore.handler ev oracle = ⟨200, .str s, some "application/json", 1, []⟩ := by
  have hfet : fetchWithRetry oracle 3 1000 = ⟨.ok r, 1, []⟩ := by
    simp [fetchWithRetry, fetchWithRetryGo, h0, hok]
  cases hpp : NScore.renderPrompt tn fns with
  | error m => rw [hpp] at hp; simp [Except.isOk, Except.toBool] at hp
  | ok p => simp [NScore.handler, hm, hb, hg, ht, hpp, hfet, hok, hj, he]

/-- Witness for the amended C5: the spec's example generated text
`{"nScore":80,"message":"ok"}` is passed through verbatim. -/
theorem claim5_witness :
    NScore.handler evGood (fun _ => .ok ⟨200, "okbody", .ok envelopeGood⟩) =
      ⟨200, .str "\x7b\"nScore\":80,\"message\":\"ok\"\x7d", some "application/json", 1, []⟩ :=
  claim5_success_passthrough evGood (fun _ => .ok ⟨200, "okbody", .ok envelopeGood⟩)
    bodyGood tnGood (.arr [.str "apple", .str "banana"]) ⟨200, "okbody", .ok envelopeGood⟩
    envelopeGood "\x7b\"nScore\":80,\"message\":\"ok\"\x7d" rfl rfl rfl rfl rfl rfl rfl rfl rfl

/-- Counterexample to claim C6 as stated: a POST recognition request whose
body lacks `supportedFoods` makes no upstream call, but the handler does
not fail with a client-error (400–499) status: the `TypeError` thrown by
`supportedFoods.join` lands in the catch block, which returns 500 — the
same status used for upstream failures. -/
theorem claim6_counterexample :
    Recognition.handler evNoFoods (fun _ => .err "unused") =
      ⟨500, .str (stringifyError "Cannot read properties of undefined (reading join)"),
        none, 0, []⟩ ∧
    ¬(400 ≤ (Recognition.handler evNoFoods (fun _ => .err "unused")).statusCode ∧
      (Recognition.handler evNoFoods (fun _ => .err "unused")).statusCode < 500) :=
  ⟨rfl, by decide⟩

/-- Claim C6, amended: for a POST recognition request whose parsed body
has no `supportedFoods` field, the handler does not contact the upstream
service, but it fails with status 500 (the type error thrown while joining
the absent list, caught by the generic error handler) — not with a
client-error status distinct from upstream failures. -/
theorem claim6_missing_supported_foods_500 (ev : Event) (oracle : Nat → FetchOutcome)
    (b img : JsVal) (hm : ev.httpMethod = "POST") (hb : ev.parsedBody = .ok b)
    (hg : b.get2 "base64ImageData" "supportedFoods" = .ok (img, .undefined)) :
    Recognition.handler ev oracle =
      ⟨500, .str (stringifyError "Cannot read properties of undefined (reading join)"),
        none, 0, []⟩ := by
  simp [Recognition.handler, hm, hb, hg, JsVal.joinE]

/-- Witness for the amended C6 at a concrete body without `supportedFoods`. -/
theorem claim6_witness :
    Recognition.handler evNoFoods (fun _ => .ok ⟨200, "okbody", .ok (.arr [])⟩) =
      ⟨500, .str (stringifyError "Cannot read properties of undefined (reading join)"),
        none, 0, []⟩ :=
  claim6_missing_supported_foods_500 evNoFoods (fun _ => .ok ⟨200, "okbody", .ok (.arr [])⟩)
    (.obj [("base64ImageData", .str "zzz")]) (.str "zzz") rfl rfl rfl

/-- Claim C8: for every valid nutrition totals object (all eight fields
present and numeric), the rendered score prompt contains each numeric
value formatted to the documented precision — `toFixed 0` for calories,
sodium and total weight, `toFixed 1` for protein, fat, carbs, sugar and
fiber — and the food names joined by the comma separator. -/
theorem claim8_prompt_formatting (tn fns : JsVal) (joined : String)
    (qW qC qP qF qCb qS qFi qNa : ℚ)
    (hW : tn.get "totalWeight" = .ok (.num qW))
    (hC : tn.get "calories" = .ok (.num qC))
    (hP : tn.get "protein" = .ok (.num qP))
    (hF : tn.get "fat" = .ok (.num qF))
    (hCb : tn.get "carbs" = .ok (.num qCb))
    (hS : tn.get "sugar" = .ok (.num qS))
    (hFi : tn.get "fiber" = .ok (.num qFi))
    (hNa : tn.get "sodium" = .ok (.num qNa))
    (hj : fns.joinE ", " = .ok joined) :
    (NScore.renderPrompt tn fns).isOk = true ∧
    StrContains (NScore.renderedPrompt tn fns) (toFixed qC 0) ∧
    StrContains (NScore.renderedPrompt tn fns) (toFixed qNa 0) ∧
    StrContains (NScore.renderedPrompt tn fns) (toFixed qW 0) ∧
    StrContains (NScore.renderedPrompt tn fns) (toFixed qP 1) ∧
    StrContains (NScore.renderedPrompt tn fns) (toFixed qF 1) ∧
    StrContains (NScore.renderedPrompt tn fns) (toFixed qCb 1) ∧
    StrContains (NScore.renderedPrompt tn fns) (toFixed qS 1) ∧
    StrContains (NScore.renderedPrompt tn fns) (toFixed qFi 1) ∧
    StrContains (NScore.renderedPrompt tn fns) joined := by
  have hrp : NScore.renderPrompt tn fns =
      .ok (scoreSeg0 ++ ((if joined = "" then "a food item" else joined) ++ (scoreSeg1 ++
        (toFixed qW 0 ++ (scoreSeg2 ++ (toFixed qC 0 ++ (scoreSeg3 ++ (toFixed qP 1 ++
        (scoreSeg4 ++ (toFixed qF 1 ++ (scoreSeg5 ++ (toFixed qCb 1 ++ (scoreSeg6 ++
        (toFixed qS 1 ++ (scoreSeg7 ++ (toFixed qFi 1 ++ (scoreSeg8 ++
        (toFixed qNa 0 ++ scoreSeg9)))))))))))))))))) := by
    simp [NScore.renderPrompt, fieldFixed, hW, hC, hP, hF, hCb, hS, hFi, hNa, hj,
      JsVal.toFixedE]
  have hrpd : NScore.renderedPrompt tn fns =
      scoreSeg0 ++ ((if joined = "" then "a food item" else joined) ++ (scoreSeg1 ++
        (toFixed qW 0 ++ (scoreSeg2 ++ (toFixed qC 0 ++ (scoreSeg3 ++ (toFixed qP 1 ++
        (scoreSeg4 ++ (toFixed qF 1 ++ (scoreSeg5 ++ (toFixed qCb 1 ++ (scoreSeg6 ++
        (toFixed qS 1 ++ (scoreSeg7 ++ (toFixed qFi 1 ++ (scoreSeg8 ++
        (toFixed qNa 0 ++ scoreSeg9))))))))))))))))) := by
    rw [NScore.renderedPrompt, hrp]
  refine ⟨by rw [hrp]; rfl, ?_, ?_, ?_, ?_, ?_, ?_, ?_, ?_, ?_⟩ <;> rw [hrpd]
  case _ =>
    repeat first
      | exact strContains_head _ _
      | apply strContains_cons
  case _ =>
    repeat first
      | exact strContains_head _ _
      | apply strContains_cons
  case _ =>
    repeat first
      | exact strContains_head _ _
      | apply strContains_cons
  case _ =>
    repeat first
      | exact strContains_head _ _
      | apply strContains_cons
  case _ =>
    repeat first
      | exact strContains_head _ _
      | apply strContains_cons
  case _ =>
    repeat first
      | exact strContains_head _ _
      | apply strContains_cons
  case _ =>
    repeat first
      | exact strContains_head _ _
      | apply strContains_cons
  case _ =>
    repeat first
      | exact strContains_head _ _
      | apply strContains_cons
  case _ =>
    by_cases hj0 : joined = ""
    · rw [hj0]; exact strContains_empty _
    · simp only [hj0, if_false]
      repeat first
        | exact strContains_head _ _
        | apply strContains_cons

/-- Witness for C8 at the concrete totals object `tnGood` and the food
names `apple`, `banana`. -/
theorem claim8_witness :
    (NScore.renderPrompt tnGood (.arr [.str "apple", .str "banana"])).isOk = true ∧
    StrContains (NScore.renderedPrompt tnGood (.arr [.str "apple", .str "banana"]))
      (toFixed 78 0) ∧
    StrContains (NScore.renderedPrompt tnGood (.arr [.str "apple", .str "banana"]))
      (toFixed 2 0) ∧
    StrContains (NScore.renderedPrompt tnGood (.arr [.str "apple", .str "banana"]))
      (toFixed 150 0) ∧
    StrContains (NScore.renderedPrompt tnGood (.arr [.str "apple", .str "banana"]))
      (toFixed 0.5 1) ∧
    StrContains (NScore.renderedPrompt tnGood (.arr [.str "apple", .str "banana"]))
      (toFixed 0.3 1) ∧
    StrContains (NScore.renderedPrompt tnGood (.arr [.str "apple", .str "banana"]))
      (toFixed 21 1) ∧
    StrContains (NScore.renderedPrompt tnGood (.arr [.str "apple", .str "banana"]))
      (toFixed 15 1) ∧
    StrContains (NScore.renderedPrompt tnGood (.arr [.str "apple", .str "banana"]))
      (toFixed 3.6 1) ∧
    StrContains (NScore.renderedPrompt tnGood (.arr [.str "apple", .str "banana"]))
      "apple, banana" :=
  claim8_prompt_formatting tnGood (.arr [.str "apple", .str "banana"]) "apple, banana"
    150 78 0.5 0.3 21 15 3.6 2 rfl rfl rfl rfl rfl rfl rfl rfl rfl
